import Mathlib

/-!
Verification of the process-supervision core of `record_timelapse.py`.

The program drives one external encoder (`ffmpeg`) child process from a small
UI state.  We embed the state and the operations that touch the child process
(`start_recording`, `stop_recording`, `cancel_recording`, and the crash
handler of the `__main__` block) as pure Lean functions.  Side effects
(spawning, signalling, sleeping, deleting a file, recomposing the UI) are
recorded as an explicit event trace returned next to the new state, in the
order the Python code performs them.

Python `int`/`float` values are embedded as `PyNum`; floats are modelled as
exact rationals (every Python float is a dyadic rational), and `str()` of a
float as its terminating decimal expansion.  `Fraction.limit_denominator` is
translated from CPython's `fractions.py`.
-/

namespace RecordTimelapse

/-- A Python number held in the fields `record_fps` / `target_fps`: either an
`int` or a `float`.  The `isinstance(…, int)` test in `start_recording`
distinguishes the two constructors. -/
inductive PyNum where
  | pint (n : ℤ)
  | pfloat (q : ℚ)
deriving DecidableEq

/-- Embedding of `isinstance(x, int)` for a `PyNum`. -/
def PyNum.isInt : PyNum → Bool
  | .pint _ => true
  | .pfloat _ => false

/-- The numeric value of a `PyNum` as an exact rational. -/
def PyNum.toRat : PyNum → ℚ
  | .pint n => (n : ℚ)
  | .pfloat q => q

/-- Left-pad a digit string with zeros up to the given length. -/
def padLeftZeros (s : String) (len : ℕ) : String :=
  String.mk (List.replicate (len - s.length) '0') ++ s

/-- Insert a decimal point `k` digits from the right of a digit string,
padding with zeros so at least one digit stands before the point. -/
def insertDecimalPoint (digits : String) (k : ℕ) : String :=
  let s := padLeftZeros digits (k + 1)
  s.take (s.length - k) ++ "." ++ s.drop (s.length - k)

/-- Embedding of Python's `str()` (as used by the f-strings building the
command line) on a `PyNum`.  `str` of an `int` is its decimal form; `str` of
a `float` is modelled as its terminating decimal expansion (every Python
float is dyadic, so the expansion terminates; a non-dyadic rational, which no
float denotes, falls back to the rational's own print form). -/
def PyNum.fmt : PyNum → String
  | .pint n => toString n
  | .pfloat q =>
      if q.den = 1 then toString q.num ++ ".0"
      else
        match (List.range 1080).find? (fun k => (q * (10 : ℚ) ^ k).den = 1) with
        | some k =>
            (if q.num < 0 then "-" else "") ++
              insertDecimalPoint (toString (q * (10 : ℚ) ^ k).num.natAbs) k
        | none => toString q

/-- The primary-screen dimensions `WINDOW_MAX_WIDTH` / `WINDOW_MAX_HEIGHT`,
obtained once at module load from `GetSystemMetrics`. -/
structure Screen where
  WINDOW_MAX_WIDTH : ℤ
  WINDOW_MAX_HEIGHT : ℤ
deriving DecidableEq

/-- The window rectangle `self.box = (left, top, right, bottom)`. -/
structure Box where
  left : ℤ
  top : ℤ
  right : ℤ
  bottom : ℤ
deriving DecidableEq

/-- Loop state of the continued-fraction loop inside
`Fraction.limit_denominator` (CPython `fractions.py`): the convergents
`p0/q0`, `p1/q1` and the remaining numerator/denominator pair `n, d`. -/
structure CFState where
  p0 : ℤ
  q0 : ℤ
  p1 : ℤ
  q1 : ℤ
  n : ℤ
  d : ℤ
deriving DecidableEq

/-- The `while True` loop of `limit_denominator`: advance the continued
fraction of `n/d` until the next convergent's denominator would exceed
`maxDen`.  Python's `//` on ints is floor division (`Int.fdiv`), and
`n - a*d` is `Int.fmod n d`.  The loop stops before `d` reaches `0` in every
Python-reachable run; the `0 < d` guard makes the Lean function total. -/
def cfLoop (maxDen : ℤ) (st : CFState) : CFState :=
  if hd : 0 < st.d then
    let a := st.n.fdiv st.d
    let q2 := st.q0 + a * st.q1
    if maxDen < q2 then st
    else cfLoop maxDen ⟨st.p1, st.q1, st.p0 + a * st.p1, q2, st.d, st.n.fmod st.d⟩
  else st
termination_by st.d.toNat
decreasing_by
  have h1 : st.n.fmod st.d = st.n % st.d := Int.fmod_eq_emod st.n (le_of_lt hd)
  have h2 : 0 ≤ st.n % st.d := Int.emod_nonneg st.n (by omega)
  have h3 : st.n % st.d < st.d := Int.emod_lt_of_pos st.n hd
  simp only [h1]
  omega

/-- Embedding of `Fraction.limit_denominator(max_denominator)` from CPython's
`fractions.py`, on an exact rational input. -/
def limit_denominator (q : ℚ) (maxDen : ℕ) : ℚ :=
  if q.den ≤ maxDen then q
  else
    let st := cfLoop (maxDen : ℤ) ⟨0, 1, 1, 0, q.num, (q.den : ℤ)⟩
    let k := ((maxDen : ℤ) - st.q0).fdiv st.q1
    if 2 * st.d * (st.q0 + k * st.q1) ≤ (q.den : ℤ) then
      (st.p1 : ℚ) / (st.q1 : ℚ)
    else
      ((st.p0 + k * st.p1 : ℤ) : ℚ) / ((st.q0 + k * st.q1 : ℤ) : ℚ)

/-- The `settb` / `setpts` computation at the top of
`RecorderApp.start_recording`: when both frame rates are `int`s,
`settb = f"1/{target_fps}"` and `setpts = target_fps`; otherwise both are
derived through `Fraction(...).limit_denominator()`.  The second component is
the string that the f-string `f"settb={settb},setpts=N/TB/{setpts}"`
interpolates for `setpts`. -/
def filterSettings (record_fps target_fps : PyNum) : String × String :=
  match record_fps, target_fps with
  | .pint _, .pint t => ("1/" ++ toString t, toString t)
  | rf, tf =>
      let settbF := limit_denominator (rf.toRat / tf.toRat) 1000000
      let setptsF := limit_denominator tf.toRat 1000000
      (toString settbF.num ++ "/" ++ toString settbF.den,
       "(" ++ toString setptsF.num ++ "/" ++ toString setptsF.den ++ ")")

/-- The argument list `self.cmd` built by `RecorderApp.start_recording`.
`now` is the `datetime.now().strftime('%Y.%m.%d_%H.%M.%S')` timestamp taken
at the invocation. -/
def build_cmd (scr : Screen) (box : Box) (record_fps target_fps : PyNum)
    (bitrate : ℤ) (now : String) : List String :=
  let fp := filterSettings record_fps target_fps
  ["ffmpeg",
   "-v", "quiet",
   "-stats",
   "-f", "gdigrab",
   "-thread_queue_size", "1024",
   "-rtbufsize", "256M",
   "-framerate", record_fps.fmt,
   "-offset_x", toString (max box.left 0),
   "-offset_y", toString (max box.top 0),
   "-video_size",
     toString (min box.right scr.WINDOW_MAX_WIDTH) ++ "x" ++
       toString (min box.bottom scr.WINDOW_MAX_HEIGHT),
   "-show_region", "0",
   "-i", "desktop",
   "-filter_complex", "settb=" ++ fp.1 ++ ",setpts=N/TB/" ++ fp.2,
   "-c:v", "h264_nvenc",
   "-r", target_fps.fmt,
   "-preset", "p4",
   "-tune", "hq",
   "-b:v", toString bitrate ++ "k",
   "-movflags", "+faststart",
   "-y",
   "recordings/timelapse_" ++ now ++ ".mkv"]

/-- The two signals the program sends to the child. -/
inductive Sig where
  | CTRL_BREAK_EVENT
  | SIGTERM
deriving DecidableEq

/-- Observable side effects of the operations, in program order:
spawning the child (`Popen`), `send_signal` / `os.kill`, `sleep`,
`self.recompose()`, `Path.unlink(missing_ok)`, and the `print` of the crash
handler when its first `os.kill` raises. -/
inductive Event where
  | spawn (cmd : List String) (pid : ℤ)
  | sendSignal (pid : ℤ) (sig : Sig)
  | sleepFor (seconds : ℚ)
  | recompose
  | unlink (path : String) (missing_ok : Bool)
  | reportError
deriving DecidableEq

/-- Whether an event is a file deletion. -/
def Event.isUnlink : Event → Bool
  | .unlink _ _ => true
  | _ => false

/-- Whether an event spawns a child process. -/
def Event.isSpawn : Event → Bool
  | .spawn _ _ => true
  | _ => false

/-- Whether an event sends the given signal (to any pid). -/
def isSignalOf (sig : Sig) : Event → Bool
  | Event.sendSignal _ s => s == sig
  | _ => false

/-- Number of `sendSignal` events carrying the given signal in a trace. -/
def countSignal (events : List Event) (sig : Sig) : ℕ :=
  (events.filter (isSignalOf sig)).length

/-- The recorder state: the fields of `RecorderApp` the supervision core
reads or writes, plus the module-global `PID`.  `process` holds the pid of
the live `Popen` handle, `none` when there is no child. -/
structure AppState where
  box : Box
  hwid : ℤ
  process : Option ℤ
  started : Bool
  record_fps : PyNum
  target_fps : PyNum
  bitrate : ℤ
  cmd : List String
  PID : ℤ
deriving DecidableEq

/-- Initial state: the class-level defaults of `RecorderApp` and `PID = 0`.
`self.cmd` is unset before the first start; it is modelled as `[]`. -/
def initState : AppState :=
  { box := ⟨0, 0, 1, 1⟩, hwid := 0, process := none, started := false,
    record_fps := .pint 1, target_fps := .pint 60, bitrate := 4000,
    cmd := [], PID := 0 }

/-- Embedding of `RecorderApp.start_recording`: return immediately when a
child handle exists, otherwise build `self.cmd`, spawn the child, and record
its pid in `self.process` and the global `PID`.  `newPid` is the pid the OS
assigns to the spawned child. -/
def start_recording (scr : Screen) (s : AppState) (now : String) (newPid : ℤ) :
    AppState × List Event :=
  match s.process with
  | some _ => (s, [])
  | none =>
      let cmd := build_cmd scr s.box s.record_fps s.target_fps s.bitrate now
      ({ s with cmd := cmd, process := some newPid, PID := newPid },
       [Event.spawn cmd newPid])

/-- Embedding of `RecorderApp.stop_recording`: return immediately when no
child handle exists, otherwise send `CTRL_BREAK_EVENT`, clear the handle and
`PID`, sleep 3 seconds, and recompose.  No file is touched. -/
def stop_recording (s : AppState) : AppState × List Event :=
  match s.process with
  | none => (s, [])
  | some pid =>
      ({ s with process := none, PID := 0 },
       [Event.sendSignal pid Sig.CTRL_BREAK_EVENT, Event.sleepFor 3,
        Event.recompose])

/-- Embedding of `RecorderApp.cancel_recording`: return immediately when no
child handle exists, otherwise send `SIGTERM`, clear the handle and `PID`,
sleep 3 seconds, recompose, and `unlink` (with `missing_ok=True`) the file
`self.cmd[-1]` — the last element of the most recently built command line. -/
def cancel_recording (s : AppState) : AppState × List Event :=
  match s.process with
  | none => (s, [])
  | some pid =>
      ({ s with process := none, PID := 0 },
       [Event.sendSignal pid Sig.SIGTERM, Event.sleepFor 3, Event.recompose,
        Event.unlink (s.cmd.getLastD "") true])

/-- Outcome of the `except Exception` block of `__main__`. -/
inductive CrashResult where
  | exitWith (code : ℤ)
  | reraise
deriving DecidableEq

/-- Embedding of the `except Exception` handler in `__main__`: when the
global `PID` is nonzero, try `os.kill(PID, CTRL_BREAK_EVENT)` (printing a
message when it raises — `firstKillFails`), sleep 5 seconds, try
`os.kill(PID, SIGTERM)` with every exception suppressed (`secondKillFails`),
and `sys.exit(PID)`; when `PID` is zero, re-raise the exception. -/
def main_except_handler (pid : ℤ) (firstKillFails secondKillFails : Bool) :
    CrashResult × List Event :=
  if pid ≠ 0 then
    (CrashResult.exitWith pid,
     [Event.sendSignal pid Sig.CTRL_BREAK_EVENT] ++
       (if firstKillFails then [Event.reportError] else []) ++
       [Event.sleepFor 5, Event.sendSignal pid Sig.SIGTERM])
  else (CrashResult.reraise, [])

/-- The disk content relevant to the claims: the set of paths that exist.
Only `unlink` changes it (the encoder's own writes belong to the external
encoder binary, not to this code). -/
def applyEvent (disk : Finset String) : Event → Finset String
  | Event.unlink path _ => disk.erase path
  | _ => disk

/-- Run a trace of events over the disk model. -/
def applyEvents (disk : Finset String) (events : List Event) : Finset String :=
  events.foldl applyEvent disk

/-- The three operations of the supervision core. -/
inductive Op where
  | start (now : String) (newPid : ℤ)
  | stop
  | cancel

/-- Dispatch an operation on the state. -/
def applyOp (scr : Screen) (s : AppState) : Op → AppState × List Event
  | Op.start now newPid => start_recording scr s now newPid
  | Op.stop => stop_recording s
  | Op.cancel => cancel_recording s

/-- Environment assumption on an operation: the OS never assigns pid `0` to
a spawned child (`Popen.pid` of a live process is nonzero on Windows). -/
def Op.valid : Op → Prop
  | Op.start _ newPid => newPid ≠ 0
  | Op.stop => True
  | Op.cancel => True

/-- States reachable from the initial state by valid operations. -/
inductive Reachable (scr : Screen) : AppState → Prop
  | init : Reachable scr initState
  | step {s : AppState} (op : Op) :
      Reachable scr s → op.valid → Reachable scr (applyOp scr s op).1

/-- The rational 1/30 in lowest terms, given by an explicit `Rat`
constructor so its numerator and denominator reduce definitionally. -/
def ratOneThirtieth : ℚ := ⟨1, 30, by decide, by decide⟩

/-- A sample screen for concrete instantiations. -/
def scr0 : Screen := ⟨1920, 1080⟩

/-- A sample state with a live child (pid 7) and a built command line. -/
def sampleRunning : AppState :=
  { initState with process := some 7, PID := 7, cmd := ["ffmpeg", "rec.mkv"] }

theorem limit_denominator_eq_self {q : ℚ} {maxDen : ℕ} (h : q.den ≤ maxDen) :
    limit_denominator q maxDen = q := by
  simp [limit_denominator, h]

theorem reachable_pid_iff {scr : Screen} {s : AppState} (h : Reachable scr s) :
    s.process.isSome = true ↔ s.PID ≠ 0 := by
  induction h with
  | init => simp [initState]
  | @step s op hs hv ih =>
      cases op with
      | start now newPid =>
          cases hp : s.process with
          | some p =>
              simp only [applyOp, start_recording, hp]
              simpa [hp] using ih
          | none =>
              simp only [applyOp, start_recording, hp]
              simpa using hv
      | stop =>
          cases hp : s.process with
          | some p => simp [applyOp, stop_recording, hp]
          | none =>
              simp only [applyOp, stop_recording, hp]
              simpa [hp] using ih
      | cancel =>
          cases hp : s.process with
          | some p => simp [applyOp, cancel_recording, hp]
          | none =>
              simp only [applyOp, cancel_recording, hp]
              simpa [hp] using ih

theorem filterSettings_not_both_int (rf tf : PyNum)
    (hint : (rf.isInt && tf.isInt) = false)
    (hden : (rf.toRat / tf.toRat).den ≤ 1000000) :
    (filterSettings rf tf).1 =
      toString (rf.toRat / tf.toRat).num ++ "/" ++
        toString (rf.toRat / tf.toRat).den := by
  cases rf with
  | pint m =>
      cases tf with
      | pint n => simp [PyNum.isInt] at hint
      | pfloat q => simp [filterSettings, limit_denominator_eq_self hden]
  | pfloat q =>
      cases tf with
      | pint n => simp [filterSettings, limit_denominator_eq_self hden]
      | pfloat r => simp [filterSettings, limit_denominator_eq_self hden]

/-- C1: for every state with a live child encoder handle, `stop_recording`
sends `CTRL_BREAK_EVENT` to that child, waits, and performs no file
deletion, so its trace leaves every disk unchanged and the encoder's output
file stays on disk. -/
theorem stop_interrupts_and_keeps_file (s : AppState) (pid : ℤ)
    (h : s.process = some pid) :
    stop_recording s =
      ({ s with process := none, PID := 0 },
       [Event.sendSignal pid Sig.CTRL_BREAK_EVENT, Event.sleepFor 3,
        Event.recompose]) ∧
    (∀ e ∈ (stop_recording s).2, e.isUnlink = false) ∧
    (∀ disk : Finset String, applyEvents disk (stop_recording s).2 = disk) := by
  have h1 : stop_recording s =
      ({ s with process := none, PID := 0 },
       [Event.sendSignal pid Sig.CTRL_BREAK_EVENT, Event.sleepFor 3,
        Event.recompose]) := by
    simp [stop_recording, h]
  refine ⟨h1, ?_, ?_⟩
  · intro e he
    rw [h1] at he
    simp only [List.mem_cons, List.not_mem_nil, or_false] at he
    rcases he with rfl | rfl | rfl <;> rfl
  · intro disk
    rw [h1]
    rfl

/-- C1 witness: at a concrete running state, stopping emits exactly the
interrupt, the 3-second wait and the recompose, and a disk holding the
output file is unchanged. -/
theorem stop_interrupts_and_keeps_file_w :
    stop_recording sampleRunning =
      ({ sampleRunning with process := none, PID := 0 },
       [Event.sendSignal 7 Sig.CTRL_BREAK_EVENT, Event.sleepFor 3,
        Event.recompose]) ∧
    applyEvents {"rec.mkv"} (stop_recording sampleRunning).2 = {"rec.mkv"} := by
  have h := stop_interrupts_and_keeps_file sampleRunning 7 rfl
  exact ⟨h.1, h.2.2 {"rec.mkv"}⟩

/-- C2: for every state with a live child encoder handle,
`cancel_recording` sends `SIGTERM` to that child, waits, and then unlinks
the last element of the most recently built command line, so that file is
absent from every resulting disk. -/
theorem cancel_terminates_and_deletes (s : AppState) (pid : ℤ)
    (h : s.process = some pid) :
    cancel_recording s =
      ({ s with process := none, PID := 0 },
       [Event.sendSignal pid Sig.SIGTERM, Event.sleepFor 3, Event.recompose,
        Event.unlink (s.cmd.getLastD "") true]) ∧
    (∀ disk : Finset String,
       s.cmd.getLastD "" ∉ applyEvents disk (cancel_recording s).2) := by
  have h1 : cancel_recording s =
      ({ s with process := none, PID := 0 },
       [Event.sendSignal pid Sig.SIGTERM, Event.sleepFor 3, Event.recompose,
        Event.unlink (s.cmd.getLastD "") true]) := by
    simp [cancel_recording, h]
  refine ⟨h1, ?_⟩
  intro disk
  rw [h1]
  exact Finset.not_mem_erase _ _

/-- C2 witness: cancelling the concrete running state emits the terminate,
the 3-second wait, the recompose and the deletion of `rec.mkv`, and a disk
that held `rec.mkv` no longer does. -/
theorem cancel_terminates_and_deletes_w :
    cancel_recording sampleRunning =
      ({ sampleRunning with process := none, PID := 0 },
       [Event.sendSignal 7 Sig.SIGTERM, Event.sleepFor 3, Event.recompose,
        Event.unlink "rec.mkv" true]) ∧
    "rec.mkv" ∉ applyEvents {"rec.mkv"} (cancel_recording sampleRunning).2 := by
  have h := cancel_terminates_and_deletes sampleRunning 7 rfl
  exact ⟨h.1, h.2 {"rec.mkv"}⟩

/-- C8: for every state with no child handle, `stop_recording` and
`cancel_recording` are no-ops: they return the state unchanged with an
empty trace (no signal, no sleep, no deletion). -/
theorem idle_stop_cancel_noop (s : AppState) (h : s.process = none) :
    stop_recording s = (s, []) ∧ cancel_recording s = (s, []) := by
  constructor <;> simp [stop_recording, cancel_recording, h]

/-- C8 witness: on the initial state both operations do nothing. -/
theorem idle_stop_cancel_noop_w :
    stop_recording initState = (initState, []) ∧
    cancel_recording initState = (initState, []) :=
  idle_stop_cancel_noop initState rfl

/-- C3: there is at most one child at a time: in every reachable state,
`start_recording` is a no-op when a handle exists (nothing spawned, state
unchanged), the tracked global `PID` is nonzero exactly when a handle
exists, every valid operation preserves that invariant, and no operation's
trace spawns more than one child. -/
theorem at_most_one_child (scr : Screen) (s : AppState) (h : Reachable scr s) :
    (∀ now newPid, s.process.isSome = true →
       applyOp scr s (Op.start now newPid) = (s, [])) ∧
    (s.process.isSome = true ↔ s.PID ≠ 0) ∧
    (∀ op : Op, op.valid →
       ((applyOp scr s op).1.process.isSome = true ↔
         (applyOp scr s op).1.PID ≠ 0)) ∧
    (∀ op : Op, ((applyOp scr s op).2.filter Event.isSpawn).length ≤ 1) := by
  refine ⟨?_, reachable_pid_iff h, ?_, ?_⟩
  · intro now newPid hp
    cases hq : s.process with
    | none => rw [hq] at hp; simp at hp
    | some p => simp [applyOp, start_recording, hq]
  · intro op hv
    exact reachable_pid_iff (Reachable.step op h hv)
  · intro op
    cases op with
    | start now newPid =>
        cases hq : s.process with
        | none => simp [applyOp, start_recording, hq, Event.isSpawn]
        | some p => simp [applyOp, start_recording, hq]
    | stop =>
        cases hq : s.process with
        | none => simp [applyOp, stop_recording, hq]
        | some p => simp [applyOp, stop_recording, hq, Event.isSpawn]
    | cancel =>
        cases hq : s.process with
        | none => simp [applyOp, cancel_recording, hq]
        | some p => simp [applyOp, cancel_recording, hq, Event.isSpawn]

/-- C3 witness: after one start from the initial state (a reachable state
with a live handle), a second start is a no-op, and the PID-nonzero
invariant holds there. -/
theorem at_most_one_child_w :
    applyOp scr0 (applyOp scr0 initState (Op.start "ts" 7)).1
        (Op.start "ts2" 9) =
      ((applyOp scr0 initState (Op.start "ts" 7)).1, []) ∧
    ((applyOp scr0 initState (Op.start "ts" 7)).1.process.isSome = true ↔
      (applyOp scr0 initState (Op.start "ts" 7)).1.PID ≠ 0) := by
  have hr : Reachable scr0 (applyOp scr0 initState (Op.start "ts" 7)).1 :=
    Reachable.step (Op.start "ts" 7) Reachable.init
      (show (7 : ℤ) ≠ 0 by decide)
  have h := at_most_one_child scr0 _ hr
  exact ⟨h.1 "ts2" 9 rfl, h.2.1⟩

/-- C4: the command line built at start is determined by the capture offset
(box left/top), capture size (box right/bottom), input frame rate, output
frame rate, bitrate and the invocation timestamp, each appearing as the
corresponding ffmpeg argument (`-framerate`, `-offset_x`, `-offset_y`,
`-video_size`, `-r`, `-b:v`, and the trailing timestamped output path), and
`start_recording` stores exactly this list as `self.cmd`. -/
theorem cmd_built_from_inputs (scr : Screen) (box : Box) (rf tf : PyNum)
    (br : ℤ) (now : String) :
    (build_cmd scr box rf tf br now)[10]? = some "-framerate" ∧
    (build_cmd scr box rf tf br now)[11]? = some rf.fmt ∧
    (build_cmd scr box rf tf br now)[12]? = some "-offset_x" ∧
    (build_cmd scr box rf tf br now)[13]? = some (toString (max box.left 0)) ∧
    (build_cmd scr box rf tf br now)[14]? = some "-offset_y" ∧
    (build_cmd scr box rf tf br now)[15]? = some (toString (max box.top 0)) ∧
    (build_cmd scr box rf tf br now)[16]? = some "-video_size" ∧
    (build_cmd scr box rf tf br now)[17]? =
      some (toString (min box.right scr.WINDOW_MAX_WIDTH) ++ "x" ++
        toString (min box.bottom scr.WINDOW_MAX_HEIGHT)) ∧
    (build_cmd scr box rf tf br now)[26]? = some "-r" ∧
    (build_cmd scr box rf tf br now)[27]? = some tf.fmt ∧
    (build_cmd scr box rf tf br now)[32]? = some "-b:v" ∧
    (build_cmd scr box rf tf br now)[33]? = some (toString br ++ "k") ∧
    (build_cmd scr box rf tf br now).getLast? =
      some ("recordings/timelapse_" ++ now ++ ".mkv") ∧
    (∀ (s : AppState) (newPid : ℤ), s.process = none →
       (start_recording scr s now newPid).1.cmd =
         build_cmd scr s.box s.record_fps s.target_fps s.bitrate now) := by
  refine ⟨rfl, rfl, rfl, rfl, rfl, rfl, rfl, rfl, rfl, rfl, rfl, rfl, rfl, ?_⟩
  intro s newPid hp
  simp [start_recording, hp]

/-- C4 witness: starting from the initial state stores the command line
built from the initial state's fields and the invocation timestamp. -/
theorem cmd_built_from_inputs_w :
    (start_recording scr0 initState "2026.10.12_00.00.00" 7).1.cmd =
      build_cmd scr0 initState.box initState.record_fps initState.target_fps
        initState.bitrate "2026.10.12_00.00.00" :=
  (cmd_built_from_inputs scr0 initState.box initState.record_fps
      initState.target_fps initState.bitrate
      "2026.10.12_00.00.00").2.2.2.2.2.2.2.2.2.2.2.2.2 initState 7 rfl

/-- C9: the capture offsets in the command line are clamped from below at
zero (`max(left, 0)`, `max(top, 0)`) and the capture size components are
clamped from above by the primary screen dimensions (`min(right, width)`,
`min(bottom, height)`). -/
theorem capture_region_clamped (scr : Screen) (box : Box) (rf tf : PyNum)
    (br : ℤ) (now : String) :
    (build_cmd scr box rf tf br now)[13]? = some (toString (max box.left 0)) ∧
    (build_cmd scr box rf tf br now)[15]? = some (toString (max box.top 0)) ∧
    (build_cmd scr box rf tf br now)[17]? =
      some (toString (min box.right scr.WINDOW_MAX_WIDTH) ++ "x" ++
        toString (min box.bottom scr.WINDOW_MAX_HEIGHT)) ∧
    0 ≤ max box.left 0 ∧ 0 ≤ max box.top 0 ∧
    min box.right scr.WINDOW_MAX_WIDTH ≤ scr.WINDOW_MAX_WIDTH ∧
    min box.bottom scr.WINDOW_MAX_HEIGHT ≤ scr.WINDOW_MAX_HEIGHT :=
  ⟨rfl, rfl, rfl, le_max_right _ _, le_max_right _ _, min_le_right _ _,
   min_le_right _ _⟩

/-- C5: when the host crashes with a child PID recorded, the handler sends
`CTRL_BREAK_EVENT`, waits 5 seconds, sends `SIGTERM`, and exits with the
child's pid as status code (at most an error report between the first
signal and the wait); with no PID recorded, the exception is re-raised. -/
theorem crash_handler_graceful_then_forceful (pid : ℤ) (k1 k2 : Bool) :
    (pid ≠ 0 →
       (main_except_handler pid k1 k2).1 = CrashResult.exitWith pid ∧
       ∃ mid : List Event,
         (main_except_handler pid k1 k2).2 =
           Event.sendSignal pid Sig.CTRL_BREAK_EVENT ::
             (mid ++ [Event.sleepFor 5, Event.sendSignal pid Sig.SIGTERM]) ∧
         ∀ e ∈ mid, e = Event.reportError) ∧
    (pid = 0 → main_except_handler pid k1 k2 = (CrashResult.reraise, [])) := by
  constructor
  · intro hp
    refine ⟨by simp [main_except_handler, hp], ?_⟩
    cases k1 with
    | false =>
        exact ⟨[], by simp [main_except_handler, hp], by simp⟩
    | true =>
        exact ⟨[Event.reportError], by simp [main_except_handler, hp],
          by simp⟩
  · intro hp
    simp [main_except_handler, hp]

/-- C5 witness: with pid 7 and a failing first kill the handler exits with
status 7; with pid 0 it re-raises. -/
theorem crash_handler_graceful_then_forceful_w :
    (main_except_handler 7 true false).1 = CrashResult.exitWith 7 ∧
    main_except_handler 0 true false = (CrashResult.reraise, []) :=
  ⟨((crash_handler_graceful_then_forceful 7 true false).1 (by decide)).1,
   (crash_handler_graceful_then_forceful 0 true false).2 rfl⟩

/-- C6: after the signal, both stop and cancel wait the same fixed delay of
3 seconds (the signal is the first event, the 3-second sleep the second),
and in cancel the deletion comes strictly after the signal and the wait:
the trace is a deletion-free prefix containing both, followed by the
unlink. -/
theorem teardown_fixed_delay (s : AppState) (pid : ℤ)
    (h : s.process = some pid) :
    (stop_recording s).2[0]? =
      some (Event.sendSignal pid Sig.CTRL_BREAK_EVENT) ∧
    (stop_recording s).2[1]? = some (Event.sleepFor 3) ∧
    (cancel_recording s).2[0]? = some (Event.sendSignal pid Sig.SIGTERM) ∧
    (cancel_recording s).2[1]? = some (Event.sleepFor 3) ∧
    (∃ pre : List Event,
       (cancel_recording s).2 =
         pre ++ [Event.unlink (s.cmd.getLastD "") true] ∧
       Event.sendSignal pid Sig.SIGTERM ∈ pre ∧
       Event.sleepFor 3 ∈ pre ∧
       ∀ e ∈ pre, e.isUnlink = false) := by
  have h1 : (stop_recording s).2 =
      [Event.sendSignal pid Sig.CTRL_BREAK_EVENT, Event.sleepFor 3,
       Event.recompose] := by
    simp [stop_recording, h]
  have h2 : (cancel_recording s).2 =
      [Event.sendSignal pid Sig.SIGTERM, Event.sleepFor 3, Event.recompose,
       Event.unlink (s.cmd.getLastD "") true] := by
    simp [cancel_recording, h]
  refine ⟨by rw [h1]; rfl, by rw [h1]; rfl, by rw [h2]; rfl,
    by rw [h2]; rfl, ?_⟩
  refine ⟨[Event.sendSignal pid Sig.SIGTERM, Event.sleepFor 3,
    Event.recompose], by rw [h2]; rfl, by simp, by simp, ?_⟩
  intro e he
  simp only [List.mem_cons, List.not_mem_nil, or_false] at he
  rcases he with rfl | rfl | rfl <;> rfl

/-- C6 witness: on the concrete running state, both traces sleep 3 seconds
right after the signal. -/
theorem teardown_fixed_delay_w :
    (stop_recording sampleRunning).2[1]? = some (Event.sleepFor 3) ∧
    (cancel_recording sampleRunning).2[1]? = some (Event.sleepFor 3) ∧
    (cancel_recording sampleRunning).2[0]? =
      some (Event.sendSignal 7 Sig.SIGTERM) := by
  have h := teardown_fixed_delay sampleRunning 7 rfl
  exact ⟨h.2.1, h.2.2.2.1, h.2.2.1⟩

/-- C7: no teardown path retries a signal: stop, cancel and the crash
handler each send any given signal at most once, and when the crash
handler's first kill fails it reports the error and still sends each
signal exactly once rather than repeating it. -/
theorem no_signal_retries (s : AppState) (pid : ℤ) (k1 k2 : Bool)
    (sig : Sig) :
    countSignal (stop_recording s).2 sig ≤ 1 ∧
    countSignal (cancel_recording s).2 sig ≤ 1 ∧
    countSignal (main_except_handler pid k1 k2).2 sig ≤ 1 ∧
    (k1 = true → pid ≠ 0 →
       countSignal (main_except_handler pid k1 k2).2
           Sig.CTRL_BREAK_EVENT = 1 ∧
       Event.reportError ∈ (main_except_handler pid k1 k2).2) := by
  refine ⟨?_, ?_, ?_, ?_⟩
  · cases hp : s.process with
    | none => simp [stop_recording, hp, countSignal]
    | some p => cases sig <;>
        simp [stop_recording, hp, countSignal, isSignalOf]
  · cases hp : s.process with
    | none => simp [cancel_recording, hp, countSignal]
    | some p => cases sig <;>
        simp [cancel_recording, hp, countSignal, isSignalOf]
  · by_cases hp : pid = 0
    · simp [main_except_handler, hp, countSignal]
    · cases k1 <;> cases sig <;>
        simp [main_except_handler, hp, countSignal, isSignalOf]
  · intro hk hp
    subst hk
    constructor
    · simp [main_except_handler, hp, countSignal, isSignalOf]
    · simp [main_except_handler, hp]

/-- C7 witness: on the concrete running state each stop signal is sent at
most once, and the crash handler with pid 7 and a failing first kill sends
`CTRL_BREAK_EVENT` exactly once and reports the failure. -/
theorem no_signal_retries_w :
    countSignal (stop_recording sampleRunning).2 Sig.CTRL_BREAK_EVENT ≤ 1 ∧
    countSignal (main_except_handler 7 true false).2
        Sig.CTRL_BREAK_EVENT = 1 ∧
    Event.reportError ∈ (main_except_handler 7 true false).2 := by
  have h := no_signal_retries sampleRunning 7 true false
    Sig.CTRL_BREAK_EVENT
  exact ⟨h.1, (h.2.2.2 rfl (by decide)).1, (h.2.2.2 rfl (by decide)).2⟩

/-- C10: the filter arguments are derived asymmetrically from the frame
rates: with two `int` frame rates, `settb` is `"1/target_fps"` and the
`setpts` divisor is `target_fps`; otherwise `settb` renders the reduced
fraction of `record_fps/target_fps` and the `setpts` divisor the reduced
fraction of `target_fps` — and for the same frame-rate ratio 2/60 the two
paths produce different `settb` values ("1/60" versus "1/30"). -/
theorem filter_settings_asymmetric :
    (∀ m n : ℤ,
       filterSettings (PyNum.pint m) (PyNum.pint n) =
         ("1/" ++ toString n, toString n)) ∧
    (∀ rf tf : PyNum, (rf.isInt && tf.isInt) = false →
       (rf.toRat / tf.toRat).den ≤ 1000000 →
       (filterSettings rf tf).1 =
         toString (rf.toRat / tf.toRat).num ++ "/" ++
           toString (rf.toRat / tf.toRat).den) ∧
    (filterSettings (PyNum.pint 2) (PyNum.pint 60)).1 = "1/60" ∧
    (filterSettings (PyNum.pfloat 2) (PyNum.pfloat 60)).1 = "1/30" ∧
    (PyNum.pfloat 2).toRat / (PyNum.pfloat 60).toRat =
      (PyNum.pint 2).toRat / (PyNum.pint 60).toRat ∧
    (filterSettings (PyNum.pint 2) (PyNum.pint 60)).1 ≠
      (filterSettings (PyNum.pfloat 2) (PyNum.pfloat 60)).1 := by
  have e1 : (PyNum.pfloat 2).toRat / (PyNum.pfloat 60).toRat =
      ratOneThirtieth := by
    simp only [PyNum.toRat]
    exact Rat.ext (by norm_num [ratOneThirtieth])
      (by norm_num [ratOneThirtieth])
  have e2 : (filterSettings (PyNum.pfloat 2) (PyNum.pfloat 60)).1 =
      "1/30" := by
    have hden : ((PyNum.pfloat 2).toRat / (PyNum.pfloat 60).toRat).den ≤
        1000000 := by
      rw [e1]; decide
    have h2 := filterSettings_not_both_int (PyNum.pfloat 2)
      (PyNum.pfloat 60) rfl hden
    rw [h2, e1]
    rfl
  refine ⟨fun m n => rfl, filterSettings_not_both_int, rfl, e2, ?_, ?_⟩
  · simp only [PyNum.toRat]
    norm_num
  · rw [e2]
    decide

/-- C10 witness: on the non-integer path with a concrete input whose ratio
is 1/30 in lowest terms, `settb` renders that reduced fraction. -/
theorem filter_settings_asymmetric_w :
    (filterSettings (PyNum.pfloat ratOneThirtieth) (PyNum.pint 1)).1 =
      toString ((PyNum.pfloat ratOneThirtieth).toRat /
          (PyNum.pint 1).toRat).num ++ "/" ++
        toString ((PyNum.pfloat ratOneThirtieth).toRat /
          (PyNum.pint 1).toRat).den := by
  have hden : ((PyNum.pfloat ratOneThirtieth).toRat /
      (PyNum.pint 1).toRat).den ≤ 1000000 := by
    simp [PyNum.toRat]
    decide
  exact filter_settings_asymmetric.2.1 (PyNum.pfloat ratOneThirtieth)
    (PyNum.pint 1) rfl hden

end RecordTimelapse
